import Mathlib

/-!
Verification development for the serverless transcription handler
(`src/handler.py`): URL admission (anti-SSRF) validator, allow-list
registry, fetch/transcribe/assemble orchestration and its error envelope.

The Python source is shallowly embedded:
  * strings are Lean `String`s, processed as `List Char`;
  * Python floats are modelled as exact rationals (`Rat`);
  * `dict` result documents are modelled by an explicit JSON value type
    whose objects are ordered key/value lists (Python dicts preserve
    insertion order);
  * exceptions are modelled with `Except` / `Option`; the stdlib calls
    `urllib.parse.urlparse` and `ipaddress.ip_address` are embedded
    following their CPython 3.11 implementations on the ASCII domain
    (non-ASCII netlocs, which CPython subjects to an NFKC normalization
    check, are conservatively mapped to a parse error, which the
    validator turns into a fail-closed denial);
  * the network, the filesystem and the speech engine are oracles: the
    handler is a function of the request event and of the outcomes of
    the fetch and transcribe steps, returning the response document
    together with the trace of external effects it performed.
-/

set_option autoImplicit false

namespace WhisperSrv

/-- Python surrogate: the Unicode whitespace set recognised by
`str.strip()` / `str.isspace()` (0x09-0x0d, 0x1c-0x1f, space, NEL,
NBSP, OGHAM, the 0x2000-0x200a block, LS, PS, NNBSP, MMSP, IDSP). -/
def pyIsSpace (c : Char) : Bool :=
  (0x09 ≤ c.val && c.val ≤ 0x0d) || c.val == 0x20 ||
  (0x1c ≤ c.val && c.val ≤ 0x1f) || c.val == 0x85 || c.val == 0xa0 ||
  c.val == 0x1680 || (0x2000 ≤ c.val && c.val ≤ 0x200a) ||
  c.val == 0x2028 || c.val == 0x2029 || c.val == 0x202f ||
  c.val == 0x205f || c.val == 0x3000

/-- Python `str.strip()`: remove leading and trailing whitespace. -/
def pyStrip (s : String) : String :=
  String.mk (((s.data.dropWhile pyIsSpace).reverse.dropWhile pyIsSpace).reverse)

/-- Python `str.lower()` restricted to ASCII (the embedding only ever
lowercases ASCII hostnames; see `pyUrlparse`). -/
def pyLower (s : String) : String :=
  String.mk (s.data.map Char.toLower)

/-- Python `str.split(sep)` for a one-character separator: splits on every
occurrence and keeps empty pieces (`"a..b".split(".") = ["a","","b"]`). -/
def splitOnChar (sep : Char) : List Char → List (List Char)
  | [] => [[]]
  | c :: cs =>
    let r := splitOnChar sep cs
    if c = sep then [] :: r
    else
      match r with
      | [] => [[c]]
      | h :: t => (c :: h) :: t

/-- ASCII decimal digits to a number (the argument is assumed to consist of
digits; callers check this first, as CPython does). -/
def digitsToNat (cs : List Char) : Nat :=
  cs.foldl (fun acc c => acc * 10 + (c.toNat - 48)) 0

/-- CPython `_HEX_DIGITS` membership: 0-9, a-f, A-F. -/
def isHexDigit (c : Char) : Bool :=
  c.isDigit || ('a' ≤ c && c ≤ 'f') || ('A' ≤ c && c ≤ 'F')

/-- Hex digit value. -/
def hexVal (c : Char) : Nat :=
  if c.isDigit then c.toNat - 48
  else if 'a' ≤ c && c ≤ 'f' then c.toNat - 87
  else c.toNat - 55

/-- Hex digits to a number. -/
def hexToNat (cs : List Char) : Nat :=
  cs.foldl (fun acc c => acc * 16 + hexVal c) 0

/-- Python `'%x' % n`: lowercase hexadecimal rendering (used by the
IPv6 parser when it rewrites an embedded dotted-quad tail). -/
def natToHexChars (n : Nat) : List Char :=
  Nat.toDigits 16 n

/-- CPython `ipaddress.IPv4Address._parse_octet` (3.11): an octet is a
non-empty string of at most three ASCII decimal digits, without leading
zeros (except `"0"` itself), of value at most 255. -/
def parseOctet (cs : List Char) : Option Nat :=
  if cs = [] then none
  else if ¬ cs.all Char.isDigit then none
  else if cs.length > 3 then none
  else if cs.length > 1 ∧ cs.headD '0' = '0' then none
  else
    let n := digitsToNat cs
    if n ≤ 255 then some n else none

/-- CPython `ipaddress.IPv4Address` string parsing: exactly four octets
separated by dots. The result is the 32-bit address value. -/
def parseIPv4 (cs : List Char) : Option Nat :=
  match splitOnChar '.' cs with
  | [a, b, c, d] => do
    let a ← parseOctet a
    let b ← parseOctet b
    let c ← parseOctet c
    let d ← parseOctet d
    pure (((a * 256 + b) * 256 + c) * 256 + d)
  | _ => none

/-- CPython `ipaddress.IPv6Address._parse_hextet` (3.11): 1 to 4 hex
digits. (CPython lets the empty string fall through to `int('', 16)`,
which raises, so empty is likewise rejected here.) -/
def parseHextet (cs : List Char) : Option Nat :=
  if cs.length < 1 ∨ cs.length > 4 then none
  else if ¬ cs.all isHexDigit then none
  else some (hexToNat cs)

/-- Fold hextets into an accumulator, 16 bits at a time. -/
def foldHextets (parts : List (List Char)) (acc : Nat) : Option Nat :=
  match parts with
  | [] => some acc
  | p :: rest => do
    let v ← parseHextet p
    foldHextets rest (acc * 65536 + v)

/-- CPython `ipaddress.IPv6Address._ip_int_from_string` (3.11): at least
3 colon-separated parts; a dotted-quad tail is expanded into two
hextets; at most 9 parts; at most one `::` (an inner empty part), with
a leading/trailing empty part only as half of a leading/trailing `::`;
without `::` exactly 8 parts. The result is the 128-bit address value. -/
def parseIPv6NoScope (cs : List Char) : Option Nat :=
  let parts0 := splitOnChar ':' cs
  if parts0.length < 3 then none
  else
    let expanded : Option (List (List Char)) :=
      let last := parts0.getLastD []
      if last.contains '.' then
        match parseIPv4 last with
        | none => none
        | some v4 =>
          some (parts0.dropLast ++
            [natToHexChars ((v4 >>> 16) &&& 0xFFFF), natToHexChars (v4 &&& 0xFFFF)])
      else some parts0
    match expanded with
    | none => none
    | some parts =>
      if parts.length > 9 then none
      else
        let innerEmpties :=
          (List.range parts.length).filter
            (fun i => 0 < i ∧ i + 1 < parts.length ∧ parts.getD i [' '] = [])
        match innerEmpties with
        | [] =>
          if parts.length ≠ 8 then none
          else if parts.headD [] = [] ∨ parts.getLastD [] = [] then none
          else foldHextets parts 0
        | [i] =>
          let partsHi0 := i
          let partsLo0 := parts.length - i - 1
          let hiOk : Option Nat :=
            if parts.headD [' '] = [] then
              if partsHi0 - 1 = 0 then some 0 else none
            else some partsHi0
          let loOk : Option Nat :=
            if parts.getLastD [' '] = [] then
              if partsLo0 - 1 = 0 then some 0 else none
            else some partsLo0
          match hiOk, loOk with
          | some partsHi, some partsLo =>
            if 8 < partsHi + partsLo then none
            else
              let skipped := 8 - (partsHi + partsLo)
              if skipped < 1 then none
              else do
                let hi ← foldHextets (parts.take partsHi) 0
                let all ← foldHextets (parts.drop (parts.length - partsLo))
                  (hi * 65536 ^ skipped)
                pure all
          | _, _ => none
        | _ => none

/-- CPython `ipaddress.IPv6Address` string parsing (3.11): reject `/`;
split an optional `%scope` (the scope must be non-empty and contain no
further `%`); parse the remaining text. Scope ids do not affect the
address value or its classification. -/
def parseIPv6 (cs : List Char) : Option Nat :=
  if cs.contains '/' then none
  else
    let addr := cs.takeWhile (fun c => c ≠ '%')
    let rest := cs.dropWhile (fun c => c ≠ '%')
    match rest with
    | [] => parseIPv6NoScope addr
    | _ :: scope =>
      if scope = [] ∨ scope.contains '%' then none
      else parseIPv6NoScope addr

/-- A parsed IP address as returned by `ipaddress.ip_address`. -/
inductive PyIP where
  | v4 (a : Nat)
  | v6 (a : Nat)
deriving DecidableEq, Repr

/-- CPython `ipaddress.ip_address(str)`: try IPv4, then IPv6; `none`
models the `ValueError` raised when neither form parses. -/
def ip_address (host : String) : Option PyIP :=
  match parseIPv4 host.data with
  | some v => some (.v4 v)
  | none =>
    match parseIPv6 host.data with
    | some v => some (.v6 v)
    | none => none

/-- Membership of a 32-bit value in an IPv4 network given by its base
address and prefix length. -/
def inNet4 (ip net prefixLen : Nat) : Bool :=
  ip >>> (32 - prefixLen) == net >>> (32 - prefixLen)

/-- Membership of a 128-bit value in an IPv6 network given by its base
address and prefix length. -/
def inNet6 (ip net prefixLen : Nat) : Bool :=
  ip >>> (128 - prefixLen) == net >>> (128 - prefixLen)

/-- CPython 3.11 IPv4 `is_private`: membership in the module's
`_private_networks` table (0.0.0.0/8, 10/8, 127/8, 169.254/16,
172.16/12, 192.0.0.0/29, 192.0.0.170/31, 192.0.2.0/24, 192.168/16,
198.18/15, 198.51.100/24, 203.0.113/24, 240/4, 255.255.255.255/32). -/
def ipv4IsPrivate (n : Nat) : Bool :=
  inNet4 n 0x00000000 8 || inNet4 n 0x0A000000 8 || inNet4 n 0x7F000000 8 ||
  inNet4 n 0xA9FE0000 16 || inNet4 n 0xAC100000 12 || inNet4 n 0xC0000000 29 ||
  inNet4 n 0xC00000AA 31 || inNet4 n 0xC0000200 24 || inNet4 n 0xC0A80000 16 ||
  inNet4 n 0xC6120000 15 || inNet4 n 0xC6336400 24 || inNet4 n 0xCB007100 24 ||
  inNet4 n 0xF0000000 4 || n == 0xFFFFFFFF

/-- CPython 3.11 `ipaddress` `is_private`. IPv4: `ipv4IsPrivate`. IPv6:
an IPv4-mapped address (`::ffff:a.b.c.d`, top 96 bits `::ffff`)
delegates to the embedded IPv4 address; otherwise membership in the
module's IPv6 `_private_networks` table (::1/128, ::/128,
::ffff:0:0/96 — unreachable after the mapped-address delegation but
kept to mirror the source table — 100::/64, 2001::/23, 2001:2::/48,
2001:db8::/32, 2001:10::/28, fc00::/7, fe80::/10). -/
def PyIP.is_private : PyIP → Bool
  | .v4 n => ipv4IsPrivate n
  | .v6 n =>
    if n >>> 32 == 0xFFFF then ipv4IsPrivate (n &&& 0xFFFFFFFF)
    else
      n == 1 || n == 0 || (n >>> 32 == 0xFFFF) ||
      inNet6 n (0x0100 <<< 112) 64 || inNet6 n (0x2001 <<< 112) 23 ||
      inNet6 n ((0x2001 <<< 112) + (0x2 <<< 96)) 48 ||
      inNet6 n ((0x2001 <<< 112) + (0xdb8 <<< 96)) 32 ||
      inNet6 n ((0x2001 <<< 112) + (0x10 <<< 96)) 28 ||
      inNet6 n (0xfc00 <<< 112) 7 || inNet6 n (0xfe80 <<< 112) 10

/-- CPython `ipaddress` `is_loopback`: IPv4 127.0.0.0/8, IPv6 ::1. -/
def PyIP.is_loopback : PyIP → Bool
  | .v4 n => inNet4 n 0x7F000000 8
  | .v6 n => n == 1

/-- CPython `ipaddress` `is_link_local`: IPv4 169.254.0.0/16, IPv6
fe80::/10. -/
def PyIP.is_link_local : PyIP → Bool
  | .v4 n => inNet4 n 0xA9FE0000 16
  | .v6 n => inNet6 n (0xfe80 <<< 112) 10

/-- CPython 3.11 `ipaddress` `is_reserved`: IPv4 240.0.0.0/4; IPv6 the
`_reserved_networks` table (::/8, 100::/8, 200::/7, 400::/6, 800::/5,
1000::/4, 4000::/3, 6000::/3, 8000::/3, a000::/3, c000::/3, e000::/4,
f000::/5, f800::/6, fe00::/9). -/
def PyIP.is_reserved : PyIP → Bool
  | .v4 n => inNet4 n 0xF0000000 4
  | .v6 n =>
    inNet6 n 0 8 || inNet6 n (0x0100 <<< 112) 8 || inNet6 n (0x0200 <<< 112) 7 ||
    inNet6 n (0x0400 <<< 112) 6 || inNet6 n (0x0800 <<< 112) 5 ||
    inNet6 n (0x1000 <<< 112) 4 || inNet6 n (0x4000 <<< 112) 3 ||
    inNet6 n (0x6000 <<< 112) 3 || inNet6 n (0x8000 <<< 112) 3 ||
    inNet6 n (0xA000 <<< 112) 3 || inNet6 n (0xC000 <<< 112) 3 ||
    inNet6 n (0xE000 <<< 112) 4 || inNet6 n (0xF000 <<< 112) 5 ||
    inNet6 n (0xF800 <<< 112) 6 || inNet6 n (0xFE00 <<< 112) 9

/-- The source's `str(ip).startswith("169.254.")`. For an IPv4 address
`str` is the dotted quad without padding, so the prefix test holds
exactly when the first octet is 169 and the second 254. `str` of an
IPv6 address is colon-separated lowercase hex (CPython compresses even
an embedded IPv4 tail to hex) followed optionally by `%scope`, so it
never begins with `"169.254."` (its fourth character cannot be a dot). -/
def PyIP.startswithMetadata : PyIP → Bool
  | .v4 n => (n >>> 24 == 169) && ((n >>> 16) &&& 0xFF == 254)
  | .v6 _ => false

/-- The `scheme`/`hostname` portion of a CPython `urlparse` result that
`is_safe_url` consumes (`parsed.scheme`, `parsed.hostname`). -/
structure UrlParts where
  scheme : String
  hostname : Option String
deriving DecidableEq, Repr

/-- CPython `scheme_chars`: ASCII letters, digits, `+`, `-`, `.`. -/
def isSchemeChar (c : Char) : Bool :=
  c.isAlpha || c.isDigit || c == '+' || c == '-' || c == '.'

/-- CPython 3.11 `urlsplit` scheme extraction: if a colon occurs at a
positive index, the first character is an ASCII letter and everything
before the colon is a scheme character, the lowercased prefix is the
scheme and parsing continues after the colon; otherwise the scheme is
empty and the whole text remains. -/
def schemeSplit (cs : List Char) : String × List Char :=
  match cs.findIdx? (fun c => c = ':') with
  | some i =>
    if 0 < i ∧ (cs.headD ' ').isAlpha ∧ (cs.take i).all isSchemeChar then
      (String.mk ((cs.take i).map Char.toLower), cs.drop (i + 1))
    else ("", cs)
  | none => ("", cs)

/-- CPython `urllib.parse._hostinfo` hostname extraction from a netloc:
take the part after the last `@`; inside it, a bracketed host is the
text between the first `[` and the following `]`, otherwise the host is
everything before the first `:`; an empty host is `None`; the result is
lowercased. -/
def hostnameOfNetloc (nl : List Char) : Option String :=
  let hostinfo := if nl.contains '@' then (nl.reverse.takeWhile (fun c => c ≠ '@')).reverse else nl
  let hostpart :=
    if hostinfo.contains '[' then
      ((hostinfo.dropWhile (fun c => c ≠ '[')).drop 1).takeWhile (fun c => c ≠ ']')
    else hostinfo.takeWhile (fun c => c ≠ ':')
  if hostpart = [] then none else some (String.mk (hostpart.map Char.toLower))

/-- CPython 3.11 `urllib.parse._check_bracketed_host`: a bracketed host
starting with `v` must match the IPvFuture shape
`v <hex digits> . <at least one character>`; any other bracketed host
must be a valid IP address and must not be IPv4. (CPython quotes the
host in the not-an-IP message; the quotes are dropped here.) -/
def checkBracketedHost (h : List Char) : Except String Unit :=
  if h.headD ' ' = 'v' then
    let t := h.drop 1
    let hex := t.takeWhile isHexDigit
    let rest := t.dropWhile isHexDigit
    if hex ≠ [] ∧ (rest.headD ' ' = '.' ∧ rest.drop 1 ≠ []) then .ok ()
    else .error "IPvFuture address is invalid"
  else
    match parseIPv4 h, parseIPv6 h with
    | some _, _ => .error "An IPv4 address cannot be in brackets"
    | none, some _ => .ok ()
    | none, none =>
      .error (String.mk h ++ " does not appear to be an IPv4 or IPv6 address")

/-- CPython 3.11 `urlsplit` restricted to the fields `is_safe_url`
reads. The URL is lstripped of C0 controls and spaces and purged of
tab, carriage return and newline; the scheme is split off; if the rest
begins with `//` the netloc runs up to the first `/`, `?` or `#`;
mismatched square brackets raise `Invalid IPv6 URL` and a bracketed
host must pass `checkBracketedHost`; the hostname is extracted from the
netloc, and no netloc means no hostname. CPython additionally subjects
non-ASCII netlocs to an NFKC-normalization safety check (ASCII netlocs
are accepted unchanged); this model covers the ASCII domain and maps
non-ASCII netlocs to a parse error, which `is_safe_url` converts into a
fail-closed denial. An `.error` result models `urlparse` raising, which
the source catches in its outer `except`, also denying. -/
def pyUrlparse (url : String) : Except String UrlParts :=
  let cs0 := url.data.dropWhile (fun c => c.val ≤ 0x20)
  let cs := cs0.filter (fun c => ¬ (c = '\t' ∨ c = '\r' ∨ c = '\n'))
  let sp := schemeSplit cs
  let scheme := sp.1
  let rest := sp.2
  if rest.take 2 = ['/', '/'] then
    let nl := (rest.drop 2).takeWhile (fun c => ¬ (c = '/' ∨ c = '?' ∨ c = '#'))
    if (nl.contains '[') ≠ (nl.contains ']') then .error "Invalid IPv6 URL"
    else
      let brCheck : Except String Unit :=
        if nl.contains '[' then
          checkBracketedHost (((nl.dropWhile (fun c => c ≠ '[')).drop 1).takeWhile (fun c => c ≠ ']'))
        else .ok ()
      match brCheck with
      | .error e => .error e
      | .ok _ =>
        if ¬ nl.all (fun c => c.val ≤ 127) then
          .error "netloc outside the modelled ASCII domain"
        else .ok ⟨scheme, hostnameOfNetloc nl⟩
  else .ok ⟨scheme, none⟩

/-- The built-in exact-host allow list (`DEFAULT_ALLOWED_DOMAINS`). -/
def DEFAULT_ALLOWED_DOMAINS : List String :=
  ["supabase.co", "supabase.in", "supabase.com", "files.lawia.app"]

/-- The built-in suffix allow list (`DEFAULT_ALLOWED_DOMAIN_SUFFIXES`). -/
def DEFAULT_ALLOWED_DOMAIN_SUFFIXES : List String :=
  [".supabase.co", ".supabase.in", ".supabase.com", ".backblazeb2.com"]

/-- The source's `_parse_csv_env`, as a function of the raw environment
value (`os.getenv(name, "")`): empty value gives no entries; otherwise
split on commas, keep the pieces whose strip is non-empty, stripped and
lowercased. -/
def _parse_csv_env (raw : String) : List String :=
  if raw = "" then []
  else (raw.splitOn ",").filterMap
    (fun x => let s := pyStrip x; if s = "" then none else some (pyLower s))

/-- Lexicographic comparison of character lists by code point — the
order Python uses to compare strings. -/
def charListLe : List Char → List Char → Bool
  | [], _ => true
  | _ :: _, [] => false
  | a :: as, b :: bs =>
    if a.val < b.val then true
    else if b.val < a.val then false
    else charListLe as bs

/-- Code-point order on strings (Python string comparison). -/
def pyStrLe (a b : String) : Bool :=
  charListLe a.data b.data

/-- Insertion into a `pyStrLe`-sorted list of strings. -/
def insertSorted (s : String) : List String → List String
  | [] => [s]
  | t :: ts => if pyStrLe s t then s :: t :: ts else t :: insertSorted s ts

/-- Python `sorted(set(l))` on strings: deduplicate, then sort
lexicographically by code point. -/
def sortedDedup (l : List String) : List String :=
  l.eraseDups.foldr insertSorted []

/-- Module-level `ALLOWED_DOMAINS`, as a function of the
`LAWIA_ALLOWED_AUDIO_DOMAINS` environment value read at startup. -/
def ALLOWED_DOMAINS (env : String) : List String :=
  sortedDedup (DEFAULT_ALLOWED_DOMAINS ++ _parse_csv_env env)

/-- Module-level `ALLOWED_DOMAIN_SUFFIXES`, as a function of the
`LAWIA_ALLOWED_AUDIO_SUFFIXES` environment value read at startup. -/
def ALLOWED_DOMAIN_SUFFIXES (env : String) : List String :=
  sortedDedup (DEFAULT_ALLOWED_DOMAIN_SUFFIXES ++ _parse_csv_env env)

/-- The literal-IP step of `is_safe_url`: `some verdict` when the
hostname parses as an IP address and one of the two deny branches
fires, `none` when the hostname is no IP literal (`ValueError` →
`pass`) or the IP is unobjectionable, in which case control falls
through to the allow-list checks. -/
def ipCheck (hostname : String) : Option (Bool × String) :=
  match ip_address hostname with
  | none => none
  | some ip =>
    if ip.is_private || ip.is_loopback || ip.is_link_local || ip.is_reserved then
      some (false, "IP no permitida: " ++ hostname)
    else if ip.startswithMetadata then
      some (false, "IP de metadata bloqueada: " ++ hostname)
    else none

/-- The allow-list step of `is_safe_url`: exact membership of the
lowercased hostname, then the first matching suffix, else denial. -/
def allowlistCheck (domains suffixes : List String) (hostname : String) : Bool × String :=
  let hostname_lower := pyLower hostname
  if domains.contains hostname_lower then (true, "Dominio permitido")
  else
    match suffixes.find? (fun sfx => hostname_lower.endsWith sfx) with
    | some sfx => (true, "Subdominio permitido: " ++ sfx)
    | none => (false, "Dominio no permitido: " ++ hostname)

/-- The source's `is_safe_url`, parameterised by the two module-level
allow lists it reads: parse the URL (any raised error is caught and
denied); deny any scheme other than `http`/`https`; deny a missing
hostname; apply the literal-IP checks; otherwise consult the allow
lists. Returns the `(allowed, reason)` pair. -/
def is_safe_url (domains suffixes : List String) (url : String) : Bool × String :=
  match pyUrlparse url with
  | .error e => (false, "Error validando URL: " ++ e)
  | .ok parsed =>
    if parsed.scheme = "http" ∨ parsed.scheme = "https" then
      match parsed.hostname with
      | none => (false, "URL sin hostname")
      | some hostname =>
        match ipCheck hostname with
        | some verdict => verdict
        | none => allowlistCheck domains suffixes hostname
    else (false, "Esquema no permitido: " ++ parsed.scheme)

/-- The scheme which the model's `urlparse` assigns to a URL, `none`
when parsing raises. -/
def schemeOf (url : String) : Option String :=
  match pyUrlparse url with
  | .ok parsed => some parsed.scheme
  | .error _ => none

/-- The hostname which the model's `urlparse` assigns to a URL, `none`
when parsing raises or yields no hostname. -/
def hostnameOf (url : String) : Option String :=
  match pyUrlparse url with
  | .ok parsed => parsed.hostname
  | .error _ => none

/-- JSON-like values: the handler's returned mappings, with objects as
ordered key/value lists (Python dicts preserve insertion order).
Python floats appear as `num` (modelled as exact rationals), Python
ints as `int`, `None` as `null`. -/
inductive J where
  | null
  | str (s : String)
  | int (n : Int)
  | num (q : Rat)
  | bool (b : Bool)
  | arr (elems : List J)
  | obj (fields : List (String × J))

/-- Look a key up in a JSON object (first occurrence). -/
def jsonLookup (key : String) : J → Option J
  | .obj fields => (fields.find? (fun kv => kv.1 == key)).map (fun kv => kv.2)
  | _ => none

/-- A word of a raw engine segment (`w.word`, `w.start`, `w.end`,
`w.probability`); `probability = none` models the attribute being
absent (`hasattr(w, 'probability')` false). -/
structure PyWord where
  word : String
  start : Rat
  end_ : Rat
  probability : Option Rat

/-- A raw engine segment (`seg.start`, `seg.end`, `seg.text`,
`seg.words`); `words = none` models the attribute being absent
(`hasattr(seg, 'words')` false). `end` is a Lean keyword, hence
`end_`. -/
structure RawSegment where
  start : Rat
  end_ : Rat
  text : String
  words : Option (List PyWord)

/-- The engine's `info` object (detected language and its
probability). -/
structure PyInfo where
  language : String
  language_probability : Rat

/-- Python `round(x, 3)` on the rational model: round `x * 1000` to the
nearest integer, ties to even, and divide back. -/
def pyRound3 (q : Rat) : Rat :=
  let x := q * 1000
  let f : Int := ⌊x⌋
  let frac : Rat := x - (f : Rat)
  let r : Int :=
    if frac < 1/2 then f
    else if 1/2 < frac then f + 1
    else if f % 2 = 0 then f else f + 1
  (r : Rat) / 1000

/-- Python `int(x)` on the rational model: truncation toward zero. -/
def pyInt (q : Rat) : Int :=
  Int.tdiv q.num (Int.ofNat q.den)

/-- One entry of a segment's `words` array: word text, start and end
rounded to 3 decimals, and the probability rounded to 3 decimals when
the attribute exists, else `None` (the key is always written). -/
def wordJson (w : PyWord) : J :=
  J.obj [("word", J.str w.word),
         ("start", J.num (pyRound3 w.start)),
         ("end", J.num (pyRound3 w.end_)),
         ("probability", match w.probability with
                         | some p => J.num (pyRound3 p)
                         | none => J.null)]

/-- One element of `segments_json`: sequential id, start/end rounded to
3 decimals, millisecond integers by truncation of `seconds * 1000`,
trimmed text; a `words` key is appended exactly when word timestamps
were requested, the segment has a `words` attribute and it is truthy
(non-empty). -/
def segmentJson (word_timestamps : Bool) (idx : Nat) (seg : RawSegment) : J :=
  let base := [("id", J.int (Int.ofNat idx)),
               ("start", J.num (pyRound3 seg.start)),
               ("end", J.num (pyRound3 seg.end_)),
               ("start_ms", J.int (pyInt (seg.start * 1000))),
               ("end_ms", J.int (pyInt (seg.end_ * 1000))),
               ("text", J.str (pyStrip seg.text))]
  match seg.words with
  | some ws =>
    if word_timestamps && !ws.isEmpty then J.obj (base ++ [("words", J.arr (ws.map wordJson))])
    else J.obj base
  | none => J.obj base

/-- The handler's `enumerate(segments_list)` loop body: emit one JSON
object per segment, threading the running index. -/
def segmentsJsonAux (word_timestamps : Bool) (idx : Nat) : List RawSegment → List J
  | [] => []
  | seg :: rest => segmentJson word_timestamps idx seg :: segmentsJsonAux word_timestamps (idx + 1) rest

/-- The `segments_json` list built by the handler's enumeration loop,
ids sequential from 0. -/
def segments_json (word_timestamps : Bool) (segs : List RawSegment) : List J :=
  segmentsJsonAux word_timestamps 0 segs

/-- The success response document (the literal dict returned at the end
of `handler`): full text (trimmed segment texts joined by single
spaces), its `transcription` alias, language info, duration (raw `end`
of the last segment, 0 with no segments), segment count and list, the
word-timestamp echo, `status: completed` and the process-wide
device/compute-type/model tags. -/
def successJson (segs : List RawSegment) (info : PyInfo) (word_timestamps : Bool)
    (device compute_type : String) : J :=
  let text := String.intercalate " " (segs.map (fun seg => pyStrip seg.text))
  let sj := segments_json word_timestamps segs
  let duration : Rat :=
    match segs.getLast? with
    | some seg => seg.end_
    | none => 0
  J.obj [("text", J.str text),
         ("transcription", J.str text),
         ("language", J.str info.language),
         ("language_probability", J.num info.language_probability),
         ("duration", J.num duration),
         ("segments_count", J.int (Int.ofNat sj.length)),
         ("segments_json", J.arr sj),
         ("has_word_timestamps", J.bool word_timestamps),
         ("status", J.str "completed"),
         ("device", J.str device),
         ("compute_type", J.str compute_type),
         ("model", J.str "faster-whisper-large-v3")]

/-- The single-field error envelope `{"error": msg}`. -/
def errorJson (msg : String) : J :=
  J.obj [("error", J.str msg)]

/-- The handler's request input mapping; absent keys are `none`
(`input_data.get(...)`). -/
structure InputData where
  audio_url : Option String
  language : Option String
  task : Option String
  word_timestamps : Option Bool

/-- The invocation event; `input` absent means `event.get("input", {})`
falls back to the empty mapping. -/
structure Event where
  input : Option InputData

/-- The empty input mapping (every `get` misses). -/
def emptyInput : InputData := ⟨none, none, none, none⟩

/-- Externally visible effects of one invocation, in order: the HTTP
GET of the audio URL, creation of the named temporary file, the engine
call, deletion of the temporary file. -/
inductive Eff where
  | httpGet (url : String)
  | createTemp
  | runEngine
  | deleteTemp
deriving DecidableEq, Repr

/-- Outcome of the download step, decided by the outside world:
`failBefore` models `requests.get` or `raise_for_status` raising (no
temporary file exists yet); `failDuring` models an exception while the
response body is being streamed into the already-created temporary
file (inside the `with` block, before `temp_path = f.name` runs);
`fetched` models a completed download with `temp_path` bound. -/
inductive FetchOutcome where
  | failBefore (msg : String)
  | failDuring (msg : String)
  | fetched

/-- Outcomes of the external steps of one invocation. `transcribeResult`
covers `model.transcribe` together with the generator consumption
`list(segments)`: `.error` models the engine raising, `.ok` the fully
materialised segment list and info object. -/
structure Oracle where
  fetch : FetchOutcome
  transcribeResult : Except String (List RawSegment × PyInfo)

/-- The source's `handler(event)`, parameterised by the module-level
allow lists and device/compute-type globals and by the oracle for the
external steps. Returns the response document and the effect trace.

Control flow mirrors the source line by line: read `input` with an
empty-dict default; extract `audio_url` and return the required-field
error while it is missing or falsy, before any validation or I/O;
validate the URL and return the denial envelope without I/O; perform
the GET; on a pre-stream failure no temporary file exists and the outer
`except` finds no `temp_path` in `locals()`; on a mid-stream failure
the temporary file has been created but `temp_path = f.name` never ran,
so the `'temp_path' in locals()` guard skips the unlink and the file
survives; after a completed download an engine failure reaches the
outer `except` with `temp_path` bound and unlinks the file; on success
the file is unlinked before the success document is returned. -/
def handler (domains suffixes : List String) (device compute_type : String)
    (event : Event) (o : Oracle) : J × List Eff :=
  let input_data := event.input.getD emptyInput
  match input_data.audio_url with
  | none => (errorJson "audio_url es requerido", [])
  | some audio_url =>
    if audio_url = "" then (errorJson "audio_url es requerido", [])
    else
      let verdict := is_safe_url domains suffixes audio_url
      if verdict.1 then
        match o.fetch with
        | .failBefore msg => (errorJson msg, [.httpGet audio_url])
        | .failDuring msg => (errorJson msg, [.httpGet audio_url, .createTemp])
        | .fetched =>
          let word_timestamps := input_data.word_timestamps.getD false
          match o.transcribeResult with
          | .error msg =>
            (errorJson msg, [.httpGet audio_url, .createTemp, .runEngine, .deleteTemp])
          | .ok (segs, info) =>
            (successJson segs info word_timestamps device compute_type,
             [.httpGet audio_url, .createTemp, .runEngine, .deleteTemp])
      else (errorJson ("URL no permitida: " ++ verdict.2), [])

/-- C1: for every URL whose hostname parses as a literal IP address
that is private, loopback, link-local, or reserved (including every
address of the 169.254.0.0/16 block, whose `str` begins with
`"169.254."`), the validator `is_safe_url` returns a deny verdict
(`allowed = false`), whatever the configured allow lists are. -/
theorem c1_bad_ip_denied (domains suffixes : List String) (url host : String)
    (ip : PyIP) (hhost : hostnameOf url = some host)
    (hip : ip_address host = some ip)
    (hbad : (ip.is_private || ip.is_loopback || ip.is_link_local || ip.is_reserved
             || ip.startswithMetadata) = true) :
    (is_safe_url domains suffixes url).1 = false := by
  unfold hostnameOf at hhost
  unfold is_safe_url
  cases hp : pyUrlparse url with
  | error e => simp
  | ok parsed =>
    rw [hp] at hhost
    simp only [] at hhost
    by_cases hs : parsed.scheme = "http" ∨ parsed.scheme = "https"
    · have hstep : ipCheck host =
          some (false,
            (if ip.is_private || ip.is_loopback || ip.is_link_local || ip.is_reserved
             then "IP no permitida: " ++ host
             else "IP de metadata bloqueada: " ++ host)) := by
        unfold ipCheck
        rw [hip]
        by_cases h1 :
            (ip.is_private || ip.is_loopback || ip.is_link_local || ip.is_reserved) = true
        · simp [h1]
        · have h2 : ip.startswithMetadata = true := by
            rcases (by simpa using hbad :
              (ip.is_private || ip.is_loopback || ip.is_link_local || ip.is_reserved) = true
                ∨ ip.startswithMetadata = true) with h | h
            · exact absurd h h1
            · exact h
          simp [h1, h2]
      simp [hs, hhost, hstep]
    · simp [hs]

/-- Witness for C1 at the cloud-metadata address. -/
theorem c1_bad_ip_denied_witness :
    (is_safe_url (ALLOWED_DOMAINS "") (ALLOWED_DOMAIN_SUFFIXES "")
      "http://169.254.169.254/latest/meta-data").1 = false :=
  c1_bad_ip_denied (ALLOWED_DOMAINS "") (ALLOWED_DOMAIN_SUFFIXES "")
    "http://169.254.169.254/latest/meta-data" "169.254.169.254"
    (PyIP.v4 0xA9FEA9FE) rfl rfl (by decide)

/-- C2: for every URL whose parsed scheme is not exactly `http` or
`https` (`file`, `gopher`, `ftp`, the empty scheme of a scheme-less
URL, and also any URL whose parsing raises), `is_safe_url` returns a
deny verdict, whatever the configured allow lists are. -/
theorem c2_scheme_denied (domains suffixes : List String) (url : String)
    (h1 : schemeOf url ≠ some "http") (h2 : schemeOf url ≠ some "https") :
    (is_safe_url domains suffixes url).1 = false := by
  unfold schemeOf at h1 h2
  unfold is_safe_url
  cases hp : pyUrlparse url with
  | error e => simp
  | ok parsed =>
    rw [hp] at h1 h2
    have hs : ¬ (parsed.scheme = "http" ∨ parsed.scheme = "https") := by
      rintro (h | h)
      · exact h1 (by simp [h])
      · exact h2 (by simp [h])
    simp [hs]

/-- Witness for C2 at a `file://` URL. -/
theorem c2_scheme_denied_witness :
    (is_safe_url (ALLOWED_DOMAINS "") (ALLOWED_DOMAIN_SUFFIXES "")
      "file:///etc/passwd").1 = false :=
  c2_scheme_denied (ALLOWED_DOMAINS "") (ALLOWED_DOMAIN_SUFFIXES "")
    "file:///etc/passwd" (by decide) (by decide)

/-- Counterexample to C3 as stated: `ftp://files.lawia.app/a.mp3` has a
hostname that exactly equals an entry of the exact-host allow list, yet
`is_safe_url` denies it (the scheme check precedes the allow-list
check), so hostname allow-list membership alone does not imply an allow
verdict. -/
theorem c3_counterexample :
    hostnameOf "ftp://files.lawia.app/a.mp3" = some "files.lawia.app" ∧
    "files.lawia.app" ∈ ALLOWED_DOMAINS "" ∧
    (is_safe_url (ALLOWED_DOMAINS "") (ALLOWED_DOMAIN_SUFFIXES "")
      "ftp://files.lawia.app/a.mp3").1 = false :=
  ⟨rfl, List.elem_iff.mp (by rfl), rfl⟩

/-- C3 as amended: for every URL that parses with scheme `http` or
`https` and whose hostname is not a literal IP address, if the
lowercased hostname exactly equals an entry of the exact-host allow
list or ends with an entry of the suffix allow list, then `is_safe_url`
returns an allow verdict (the hostname produced by `urlparse` is
already lowercased, so matching is case-insensitive in the hostname). -/
theorem c3_allowlisted_host_allowed (domains suffixes : List String)
    (url scheme host : String)
    (hparse : pyUrlparse url = .ok ⟨scheme, some host⟩)
    (hscheme : scheme = "http" ∨ scheme = "https")
    (hnotip : ip_address host = none)
    (hmatch : pyLower host ∈ domains ∨
              ∃ sfx ∈ suffixes, (pyLower host).endsWith sfx = true) :
    (is_safe_url domains suffixes url).1 = true := by
  unfold is_safe_url
  rw [hparse]
  have hstep : ipCheck host = none := by
    unfold ipCheck
    rw [hnotip]
  have hallow : (allowlistCheck domains suffixes host).1 = true := by
    unfold allowlistCheck
    rcases hmatch with hm | ⟨sfx, hsin, hends⟩
    · simp [hm]
    · by_cases hm2 : pyLower host ∈ domains
      · simp [hm2]
      · cases hf : suffixes.find? (fun s => (pyLower host).endsWith s) with
        | some s => simp [hm2, hf]
        | none =>
          exfalso
          have := List.find?_eq_none.mp hf sfx hsin
          simp [hends] at this
  simp [hscheme, hstep, hallow]

/-- Witness for the amended C3 at an exact-host match. -/
theorem c3_allowlisted_host_allowed_witness :
    (is_safe_url (ALLOWED_DOMAINS "") (ALLOWED_DOMAIN_SUFFIXES "")
      "https://files.lawia.app/a.mp3").1 = true :=
  c3_allowlisted_host_allowed (ALLOWED_DOMAINS "") (ALLOWED_DOMAIN_SUFFIXES "")
    "https://files.lawia.app/a.mp3" "https" "files.lawia.app"
    rfl (Or.inr rfl) rfl (Or.inl (List.elem_iff.mp (by rfl)))

/-- Python int() of an integer-valued rational is that integer. -/
theorem pyInt_intCast (n : Int) : pyInt ((n : Int) : Rat) = n := by
  unfold pyInt
  simp

/-- C4 evaluated at the failing input: with an allow-listed URL and a
download whose body stream fails after the temporary file has been
created (`failDuring`, e.g. a read timeout in `iter_content`), the
handler returns the error envelope but its effect trace contains the
file creation and no deletion — the temporary file is leaked, because
`temp_path = f.name` never executed and the `except` block's
`'temp_path' in locals()` guard therefore skips the unlink. -/
theorem c4_temp_file_leaked_on_stream_failure :
    (handler (ALLOWED_DOMAINS "") (ALLOWED_DOMAIN_SUFFIXES "") "cuda" "float16"
       ⟨some ⟨some "https://files.lawia.app/a.mp3", none, none, none⟩⟩
       ⟨.failDuring "HTTPSConnectionPool: read timed out", .ok ([], ⟨"es", 1⟩)⟩).1 =
      errorJson "HTTPSConnectionPool: read timed out" ∧
    (handler (ALLOWED_DOMAINS "") (ALLOWED_DOMAIN_SUFFIXES "") "cuda" "float16"
       ⟨some ⟨some "https://files.lawia.app/a.mp3", none, none, none⟩⟩
       ⟨.failDuring "HTTPSConnectionPool: read timed out", .ok ([], ⟨"es", 1⟩)⟩).2.count
      .createTemp = 1 ∧
    (handler (ALLOWED_DOMAINS "") (ALLOWED_DOMAIN_SUFFIXES "") "cuda" "float16"
       ⟨some ⟨some "https://files.lawia.app/a.mp3", none, none, none⟩⟩
       ⟨.failDuring "HTTPSConnectionPool: read timed out", .ok ([], ⟨"es", 1⟩)⟩).2.count
      .deleteTemp = 0 :=
  ⟨rfl, rfl, rfl⟩

/-- C5: on the fixed raw segments with starts 0.0, 2.501, 5.0 and ends
2.5, 4.999, 7.25, the assembly loop produces start_ms 0, 2501, 5000,
end_ms 2500, 4999, 7250, sequential ids 0, 1, 2, and the response
document's top-level duration is 7.25. -/
theorem c5_assembly_roundtrip :
    ((segments_json false
        [⟨0, 2.5, "a", none⟩, ⟨2.501, 4.999, "b", none⟩, ⟨5, 7.25, "c", none⟩]).map
       (jsonLookup "start_ms") =
      [some (J.int 0), some (J.int 2501), some (J.int 5000)]) ∧
    ((segments_json false
        [⟨0, 2.5, "a", none⟩, ⟨2.501, 4.999, "b", none⟩, ⟨5, 7.25, "c", none⟩]).map
       (jsonLookup "end_ms") =
      [some (J.int 2500), some (J.int 4999), some (J.int 7250)]) ∧
    ((segments_json false
        [⟨0, 2.5, "a", none⟩, ⟨2.501, 4.999, "b", none⟩, ⟨5, 7.25, "c", none⟩]).map
       (jsonLookup "id") =
      [some (J.int 0), some (J.int 1), some (J.int 2)]) ∧
    (jsonLookup "duration"
       (successJson [⟨0, 2.5, "a", none⟩, ⟨2.501, 4.999, "b", none⟩, ⟨5, 7.25, "c", none⟩]
         ⟨"es", 1⟩ false "cuda" "float16") =
      some (J.num 7.25)) := by
  have e0 : (0 : Rat) * 1000 = ((0 : Int) : Rat) := by norm_num
  have e1 : (2.501 : Rat) * 1000 = ((2501 : Int) : Rat) := by norm_num
  have e2 : (5 : Rat) * 1000 = ((5000 : Int) : Rat) := by norm_num
  have e3 : (2.5 : Rat) * 1000 = ((2500 : Int) : Rat) := by norm_num
  have e4 : (4.999 : Rat) * 1000 = ((4999 : Int) : Rat) := by norm_num
  have e5 : (7.25 : Rat) * 1000 = ((7250 : Int) : Rat) := by norm_num
  refine ⟨?_, ?_, rfl, rfl⟩
  · simp [segments_json, segmentsJsonAux, segmentJson, jsonLookup, e0, e1, e2, pyInt]
  · simp [segments_json, segmentsJsonAux, segmentJson, jsonLookup, e3, e4, e5, pyInt]

/-- C6: for every event and every outcome of the external steps, the
handler returns either the success document (with `status: completed`)
or exactly the single-field `{error: msg}` envelope — every failure is
converted at the handler boundary, no exception escapes. -/
theorem c6_error_envelope (domains suffixes : List String) (device compute_type : String)
    (event : Event) (o : Oracle) :
    (∃ msg, (handler domains suffixes device compute_type event o).1 = errorJson msg) ∨
    (∃ segs info wt, (handler domains suffixes device compute_type event o).1 =
        successJson segs info wt device compute_type) := by
  simp only [handler]
  cases h : (event.input.getD emptyInput).audio_url with
  | none => exact Or.inl ⟨"audio_url es requerido", rfl⟩
  | some url =>
    by_cases hu : url = ""
    · simp only [if_pos hu]
      exact Or.inl ⟨"audio_url es requerido", rfl⟩
    · simp only [if_neg hu]
      by_cases hv : (is_safe_url domains suffixes url).1 = true
      · simp only [if_pos hv]
        cases o.fetch with
        | failBefore msg => exact Or.inl ⟨msg, rfl⟩
        | failDuring msg => exact Or.inl ⟨msg, rfl⟩
        | fetched =>
          cases htr : o.transcribeResult with
          | error msg => simp only [htr]; exact Or.inl ⟨msg, rfl⟩
          | ok pr =>
            obtain ⟨segs, info⟩ := pr
            simp only [htr]
            exact Or.inr ⟨segs, info, (event.input.getD emptyInput).word_timestamps.getD false, rfl⟩
      · simp only [if_neg hv]
        exact Or.inl ⟨"URL no permitida: " ++ (is_safe_url domains suffixes url).2, rfl⟩

/-- C7: for every segment list, the success document's top-level `text`
is the segments' texts, each stripped of leading/trailing whitespace,
joined by single ASCII spaces in emission order; for the empty list it
is the empty string. -/
theorem c7_text_join (segs : List RawSegment) (info : PyInfo) (wt : Bool)
    (device compute_type : String) :
    jsonLookup "text" (successJson segs info wt device compute_type) =
      some (J.str (String.intercalate " " (segs.map (fun seg => pyStrip seg.text)))) ∧
    jsonLookup "text" (successJson [] info wt device compute_type) = some (J.str "") :=
  ⟨rfl, rfl⟩

/-- Counterexample to C8 as stated: a requested word-timestamp run on a
segment whose word lacks a probability attribute emits a word entry in
which the `probability` field is not omitted — the key is present and
bound to `None` (JSON null). -/
theorem c8_probability_counterexample :
    (segments_json true [⟨0, 1, "hi", some [⟨"hi", 0, 1, none⟩]⟩]).map (jsonLookup "words") =
      [some (J.arr [wordJson ⟨"hi", 0, 1, none⟩])] ∧
    jsonLookup "probability" (wordJson ⟨"hi", 0, 1, none⟩) = some J.null :=
  ⟨rfl, rfl⟩

/-- C8 as amended: when word timestamps are requested and a segment
exposes a non-empty word list, the emitted `words` array carries, for
each word, its text and 3-decimal-rounded start/end, and its
`probability` field holds the 3-decimal-rounded engine probability when
one is supplied and `None` (JSON null) when not — no numeric value is
fabricated. -/
theorem c8_probability_null_amended (wt : Bool) (idx : Nat) (seg : RawSegment)
    (ws : List PyWord) (hwt : wt = true) (hws : seg.words = some ws) (hne : ws ≠ []) :
    jsonLookup "words" (segmentJson wt idx seg) = some (J.arr (ws.map wordJson)) ∧
    ∀ w ∈ ws,
      jsonLookup "word" (wordJson w) = some (J.str w.word) ∧
      jsonLookup "start" (wordJson w) = some (J.num (pyRound3 w.start)) ∧
      jsonLookup "end" (wordJson w) = some (J.num (pyRound3 w.end_)) ∧
      jsonLookup "probability" (wordJson w) =
        some (match w.probability with
              | some p => J.num (pyRound3 p)
              | none => J.null) := by
  subst hwt
  have hemp : ws.isEmpty = false := by
    simpa using hne
  constructor
  · unfold segmentJson
    rw [hws]
    simp only [hemp, Bool.true_and, Bool.not_false, if_true]
    rfl
  · intro w _
    refine ⟨rfl, rfl, rfl, rfl⟩

/-- Witness for the amended C8 at a one-word segment without an engine
probability. -/
theorem c8_probability_null_amended_witness :
    jsonLookup "words" (segmentJson true 0 ⟨0, 1, "hi", some [⟨"hi", 0, 1, none⟩]⟩) =
      some (J.arr [wordJson ⟨"hi", 0, 1, none⟩]) :=
  (c8_probability_null_amended true 0 ⟨0, 1, "hi", some [⟨"hi", 0, 1, none⟩]⟩
    [⟨"hi", 0, 1, none⟩] rfl rfl (List.cons_ne_nil _ _)).1

/-- C9: whenever `audio_url` is absent from the input mapping or is
present but empty (falsy), the handler immediately returns the
required-field error envelope with an empty effect trace: no HTTP
request is issued and no temporary file is created, and the returned
message is the early-return one, not a validation denial. -/
theorem c9_missing_audio_url (domains suffixes : List String) (device compute_type : String)
    (event : Event) (o : Oracle)
    (h : (event.input.getD emptyInput).audio_url = none ∨
         (event.input.getD emptyInput).audio_url = some "") :
    handler domains suffixes device compute_type event o =
      (errorJson "audio_url es requerido", []) := by
  unfold handler
  rcases h with h | h <;> simp [h]

/-- Witness for C9 at an event with no input mapping at all. -/
theorem c9_missing_audio_url_witness :
    handler (ALLOWED_DOMAINS "") (ALLOWED_DOMAIN_SUFFIXES "") "cuda" "float16"
      ⟨none⟩ ⟨.fetched, .error "x"⟩ = (errorJson "audio_url es requerido", []) :=
  c9_missing_audio_url (ALLOWED_DOMAINS "") (ALLOWED_DOMAIN_SUFFIXES "") "cuda" "float16"
    ⟨none⟩ ⟨.fetched, .error "x"⟩ (Or.inl rfl)

/-- C10: for every non-empty segment list the success document's
top-level `duration` is the raw engine `end` of the last segment; at a
concrete input whose last raw end is 0.0004 the stored 3-decimal
rounded `end` of the last `segments_json` element is 0, which differs
from the duration 0.0004 — so the two values differ whenever rounding
changes the raw end. -/
theorem c10_duration_is_raw_end :
    (∀ (segs : List RawSegment) (info : PyInfo) (wt : Bool) (device compute_type : String)
       (h : segs ≠ []),
       jsonLookup "duration" (successJson segs info wt device compute_type) =
         some (J.num ((segs.getLast h).end_))) ∧
    (jsonLookup "duration" (successJson [⟨0, 0.0004, "x", none⟩] ⟨"es", 1⟩ false "cpu" "int8") =
       some (J.num 0.0004) ∧
     jsonLookup "end" ((segments_json false [⟨0, 0.0004, "x", none⟩]).getLastD J.null) =
       some (J.num 0) ∧
     (0.0004 : Rat) ≠ 0) := by
  constructor
  · intro segs info wt device compute_type h
    have hl : segs.getLast? = some (segs.getLast h) := List.getLast?_eq_getLast segs h
    simp only [successJson, hl, jsonLookup]
    rfl
  · have hx : (0.0004 : Rat) * 1000 = 0.4 := by norm_num
    have hf : ⌊(0.4 : Rat)⌋ = 0 := by
      rw [Int.floor_eq_zero_iff]
      constructor <;> norm_num
    have hr : pyRound3 0.0004 = 0 := by
      simp only [pyRound3, hx, hf]
      norm_num
    refine ⟨rfl, ?_, by norm_num⟩
    simp [segments_json, segmentsJsonAux, segmentJson, jsonLookup, hr]

/-- Witness for C10 at a one-segment list. -/
theorem c10_duration_is_raw_end_witness :
    jsonLookup "duration" (successJson [⟨0, 7.25, "x", none⟩] ⟨"es", 1⟩ false "cpu" "int8") =
      some (J.num 7.25) :=
  c10_duration_is_raw_end.1 [⟨0, 7.25, "x", none⟩] ⟨"es", 1⟩ false "cpu" "int8"
    (List.cons_ne_nil _ _)

end WhisperSrv
